import Mathlib

/-!
Verification of the WhatsApp message-extraction pipeline in
src/whatsapp_integration.py. The embedding models Python strings as lists
of characters and transcribes the string operations the source uses: the
rule-based task extractor and its cues, the message identifier derivation,
the export-file line pattern, the tail truncation of extracted message
elements, the conversation navigation outcome, and the deduplication and
persistence gate over the whatsapp_tasks and whatsapp_processed_messages
tables.
-/

namespace Cassie

/-- The Python whitespace set recognised by strip and by split with no
arguments: tab, line feed, vertical tab, form feed, carriage return and
space. -/
def isWs (c : Char) : Bool :=
  c.toNat == 9 || c.toNat == 10 || c.toNat == 11 || c.toNat == 12 ||
  c.toNat == 13 || c.toNat == 32

/-- Character list of a string literal. -/
def lc (s : String) : List Char := s.data

/-- Python str.strip with no arguments: drop leading and trailing
whitespace. -/
def pyStrip (l : List Char) : List Char :=
  ((l.dropWhile isWs).reverse.dropWhile isWs).reverse

/-- ASCII lowercasing of one character, as Python str.lower acts on the
characters appearing in this pipeline. -/
def pyLowerChar (c : Char) : Char :=
  match c with
  | 'A' => 'a' | 'B' => 'b' | 'C' => 'c' | 'D' => 'd' | 'E' => 'e' | 'F' => 'f'
  | 'G' => 'g' | 'H' => 'h' | 'I' => 'i' | 'J' => 'j' | 'K' => 'k' | 'L' => 'l'
  | 'M' => 'm' | 'N' => 'n' | 'O' => 'o' | 'P' => 'p' | 'Q' => 'q' | 'R' => 'r'
  | 'S' => 's' | 'T' => 't' | 'U' => 'u' | 'V' => 'v' | 'W' => 'w' | 'X' => 'x'
  | 'Y' => 'y' | 'Z' => 'z' | other => other

/-- Python str.lower. -/
def pyLower (l : List Char) : List Char := l.map pyLowerChar

/-- Accumulator worker for the whitespace split. -/
def wordsAux : List Char → List Char → List (List Char)
  | [], acc => if acc.isEmpty then [] else [acc.reverse]
  | c :: cs, acc =>
    if isWs c then
      if acc.isEmpty then wordsAux cs [] else acc.reverse :: wordsAux cs []
    else wordsAux cs (c :: acc)

/-- Python str.split with no arguments: split on whitespace runs, dropping
empty pieces. -/
def pyWords (l : List Char) : List (List Char) := wordsAux l []

/-- Number of words of a message, the quantity len of split compared by the
minimum word filter and by the three word guard of the fallback. -/
def wordCount (l : List Char) : Nat := (pyWords l).length

/-- Python str.startswith on character lists. -/
def leadsWith : List Char → List Char → Bool
  | [], _ => true
  | _ :: _, [] => false
  | p :: ps, c :: cs => p == c && leadsWith ps cs

/-- Python substring membership, the in operator on strings. -/
def hasSub (pat : List Char) : List Char → Bool
  | [] => leadsWith pat []
  | c :: cs => leadsWith pat (c :: cs) || hasSub pat cs

/-- Python str.split on a single newline separator, keeping empty pieces,
as message_text.split applied with a newline argument. -/
def splitNl : List Char → List (List Char)
  | [] => [[]]
  | c :: cs =>
    if c == '\n' then [] :: splitNl cs
    else
      match splitNl cs with
      | [] => [[c]]
      | w :: ws => (c :: w) :: ws

/-- The numbered-list detection of the source, the search for a pattern of
one or more digits, a dot and a whitespace character at line start. -/
def numDotWsLead (l : List Char) : Bool :=
  let ds := l.takeWhile Char.isDigit
  !ds.isEmpty &&
    (match l.drop ds.length with
     | '.' :: w :: _ => isWs w
     | _ => false)

/-- The substitution removing a numbered-list head, digits then a dot then
one or more whitespace characters, from the start of a task line. -/
def stripNumDot (l : List Char) : List Char :=
  let ds := l.takeWhile Char.isDigit
  if ds.isEmpty then l
  else
    match l.drop ds.length with
    | '.' :: rest => if (rest.takeWhile isWs).isEmpty then l else rest.dropWhile isWs
    | _ => l

/-- The marker list stripped from a detected task line, in source order. -/
def taskMarkers : List (List Char) :=
  [lc "- ", lc "* ", lc "• ", lc "todo:", lc "to do:", lc "task:"]

/-- The cleanup loop of the source: for each marker in order, when the
lowercased task starts with it, cut it off and strip the remainder. -/
def stripMarkers (task : List Char) : List Char :=
  taskMarkers.foldl
    (fun t m => if leadsWith m (pyLower t) then pyStrip (t.drop m.length) else t) task

/-- The task-indicator test of the source on a stripped line: bullet
markers, todo and task labels, a numbered head, or the politeness markers
please and can you anywhere in the lowercased line. -/
def lineHasCue (line : List Char) : Bool :=
  leadsWith (lc "- ") line || leadsWith (lc "* ") line || leadsWith (lc "• ") line ||
  leadsWith (lc "todo:") line || leadsWith (lc "to do:") line ||
  leadsWith (lc "task:") line || numDotWsLead line ||
  hasSub (lc "please") (pyLower line) || hasSub (lc "can you") (pyLower line)

/-- One line of the structured pass of the rule-based extraction: the line
is stripped, tested against the cues, the markers and the numbered head are
removed, and the result survives only with at least three words. -/
def structuredLineTask (raw : List Char) : Option (List Char) :=
  if lineHasCue (pyStrip raw) then
    if 3 ≤ wordCount (stripNumDot (stripMarkers (pyStrip raw))) then
      some (stripNumDot (stripMarkers (pyStrip raw)))
    else none
  else none

/-- The closed action-verb set of the second pass. -/
def actionVerbs : List (List Char) :=
  [lc "check", lc "review", lc "create", lc "update", lc "send", lc "prepare",
   lc "schedule", lc "call", lc "verify", lc "complete"]

/-- One line of the action-verb pass: the stripped lowercased line must
start with a listed verb and hold at least three words; the stripped line
itself becomes the task. -/
def verbLineTask (raw : List Char) : Option (List Char) :=
  if ¬(pyWords (pyLower (pyStrip raw))).isEmpty ∧
      actionVerbs.contains ((pyWords (pyLower (pyStrip raw))).headD []) ∧
      3 ≤ (pyWords (pyLower (pyStrip raw))).length then
    some (pyStrip raw)
  else none

/-- The rule-based fallback of extract_tasks_from_message: the structured
pass over the message lines, then the action-verb pass only when the
structured pass found nothing. -/
def extract_tasks_fallback (text : List Char) : List (List Char) :=
  if ((splitNl text).filterMap structuredLineTask).isEmpty then
    (splitNl text).filterMap verbLineTask
  else
    (splitNl text).filterMap structuredLineTask

/-- The language-model boundary of one extraction call: the configured key,
when present, and the response text the call produced, none on any
transport or parse failure. -/
structure ApiEnv where
  apiKey : Option (List Char)
  response : Option (List Char)

/-- extract_tasks_from_message: with an API key and a usable response the
response lines become tasks, with the NO_TASK sentinel or no usable
response the rule-based fallback runs on the message text; without a key
the fallback runs directly. -/
def extract_tasks_from_message (env : ApiEnv) (text : List Char) : List (List Char) :=
  match env.apiKey with
  | none => extract_tasks_fallback text
  | some _ =>
    match env.response with
    | none => extract_tasks_fallback text
    | some r =>
      if ¬(pyStrip r).isEmpty ∧ ¬hasSub (lc "NO_TASK") r then
        (splitNl r).filterMap
          (fun t => if (pyStrip t).isEmpty then none else some (pyStrip t))
      else extract_tasks_fallback text

/-- Modelled from the spec: the source builds identifiers with the host
language hash of a string, which the spec flags as a per-process salted
hash that is not guaranteed stable across process restarts. The salt of
the process is the seed argument; the fold is a stand-in for the salted
64 bit string hash of the runtime, faithful in depending on both the seed
and every character. -/
def pyHashModel (seed : Nat) (s : List Char) : Nat :=
  s.foldl (fun h c => (h * 31 + c.toNat) % 2 ^ 64) seed

/-- Decimal rendering of the hash, as the f-string renders it. -/
def natChars (n : Nat) : List Char := (Nat.repr n).data

/-- The per-message identifier both scan paths build: group name, sender
and the hash of the message text joined with underscores. -/
def scan_message_id (seed : Nat) (group sender text : List Char) : List Char :=
  group ++ lc "_" ++ sender ++ lc "_" ++ natChars (pyHashModel seed text)

/-- The per-task identifier stored with a task: the message identifier
extended with the hash of the extracted task text. -/
def stored_message_id (seed : Nat) (group sender text task : List Char) : List Char :=
  scan_message_id seed group sender text ++ lc "_" ++ natChars (pyHashModel seed task)

/-- The task dictionary both scan paths assemble for one extracted task. -/
structure WaTask where
  message_id : List Char
  sender : List Char
  original_message : List Char
  task_description : List Char
  timestamp : List Char
  group_name : List Char
deriving DecidableEq

/-- The task record built inside scan_whatsapp_messages for one extracted
task of one message. -/
def mkWaTaskLive (seed : Nat) (group now sender text task : List Char) : WaTask :=
  { message_id := stored_message_id seed group sender text task
    sender := sender
    original_message := text
    task_description := task
    timestamp := now
    group_name := group }

/-- The task record built inside scan_from_exported_chats for one extracted
task of one parsed message. -/
def mkWaTaskExport (seed : Nat) (group now sender text task : List Char) : WaTask :=
  { message_id := stored_message_id seed group sender text task
    sender := sender
    original_message := text
    task_description := task
    timestamp := now
    group_name := group }

/-- Per-message processing of the live scan loop: the message is dropped
when its text is empty or its word count is below the configured minimum,
otherwise each extracted task becomes a record. -/
def live_message_tasks (env : ApiEnv) (seed minWords : Nat)
    (group now sender text : List Char) : List WaTask :=
  if text.isEmpty ∨ wordCount text < minWords then []
  else (extract_tasks_from_message env text).map (mkWaTaskLive seed group now sender text)

/-- Per-message processing of the export scan loop: every parsed message is
handed to the extraction engine, with no word count filter. -/
def export_message_tasks (env : ApiEnv) (seed : Nat)
    (group now sender text : List Char) : List WaTask :=
  (extract_tasks_from_message env text).map (mkWaTaskExport seed group now sender text)

/-- The export line pattern of the source: a bracketed two digit date and
time, a space, a sender free of colons, a colon and a space, and a
non-empty message running to the end of the line. Returns the captured
timestamp, sender and message. -/
def parse_export_line (l : List Char) :
    Option (List Char × List Char × List Char) :=
  match l with
  | '[' :: a1 :: a2 :: '/' :: b1 :: b2 :: '/' :: c1 :: c2 :: ',' :: ' ' ::
      h1 :: h2 :: ':' :: m1 :: m2 :: ':' :: s1 :: s2 :: ']' :: ' ' :: rest =>
    if a1.isDigit ∧ a2.isDigit ∧ b1.isDigit ∧ b2.isDigit ∧ c1.isDigit ∧ c2.isDigit ∧
       h1.isDigit ∧ h2.isDigit ∧ m1.isDigit ∧ m2.isDigit ∧ s1.isDigit ∧ s2.isDigit then
      let sender := rest.takeWhile (fun c => c != ':')
      if sender.isEmpty then none
      else
        match rest.drop sender.length with
        | ':' :: ' ' :: msg =>
          if msg.isEmpty then none
          else some ([a1, a2, '/', b1, b2, '/', c1, c2, ',', ' ',
                      h1, h2, ':', m1, m2, ':', s1, s2],
                     sender, msg)
        | _ => none
    else none
  | _ => none

/-- One matched line of scan_from_exported_chats: the captured sender and
message text are fed through the extraction engine. -/
def scan_export_line (env : ApiEnv) (seed : Nat) (group now : List Char)
    (line : List Char) : List WaTask :=
  match parse_export_line line with
  | none => []
  | some (_, sender, msg) => export_message_tasks env seed group now sender msg

/-- Concatenation of per-element results, the shape of the accumulation
loops of both scan paths. -/
def concatMap (f : α → List β) : List α → List β
  | [] => []
  | a :: l => f a ++ concatMap f l

/-- scan_from_exported_chats over the lines of one export file. -/
def scan_from_exported_chats (env : ApiEnv) (seed : Nat) (group now : List Char)
    (lines : List (List Char)) : List WaTask :=
  concatMap (scan_export_line env seed group now) lines

/-- A row of the whatsapp_tasks table. -/
structure TaskRow where
  group_name : List Char
  sender : List Char
  message : List Char
  task_description : List Char
  timestamp : List Char
  message_id : List Char
  status : List Char
  priority : List Char
deriving DecidableEq

/-- A row of the whatsapp_processed_messages table, whose message_id column
is the primary key of the table. -/
structure ProcRow where
  message_id : List Char
  group_name : List Char
  sender : List Char
  processed_date : List Char
deriving DecidableEq

/-- The two tables the deduplication and persistence gate writes. -/
structure DB where
  tasks : List TaskRow
  processed : List ProcRow
deriving DecidableEq

/-- The whatsapp_tasks row save_tasks_to_db inserts: the insert names six
columns, so status and priority take the defaults pending and medium
declared in the table definition. -/
def insertTaskRow (group : List Char) (t : WaTask) : TaskRow :=
  { group_name := group
    sender := t.sender
    message := t.original_message
    task_description := t.task_description
    timestamp := t.timestamp
    message_id := t.message_id
    status := lc "pending"
    priority := lc "medium" }

/-- The whatsapp_processed_messages row save_tasks_to_db inserts. -/
def insertProcRow (group now : List Char) (t : WaTask) : ProcRow :=
  { message_id := t.message_id
    group_name := group
    sender := t.sender
    processed_date := now }

/-- The processed-set check: the select for the identifier in
whatsapp_processed_messages followed by fetchone. -/
def hasProcessed (db : DB) (id : List Char) : Bool :=
  db.processed.any (fun p => p.message_id == id)

/-- save_tasks_to_db: for each task in order, skip it when its identifier
is already in the processed table, otherwise insert the task row, mark the
identifier processed and count it; later tasks of the same call see the
earlier inserts. Returns the new state and the count of new tasks. -/
def save_tasks_to_db (tasks : List WaTask) (group now : List Char) (db : DB) :
    DB × Nat :=
  tasks.foldl
    (fun acc t =>
      if hasProcessed acc.1 t.message_id then acc
      else
        ({ tasks := acc.1.tasks ++ [insertTaskRow group t]
           processed := acc.1.processed ++ [insertProcRow group now t] }, acc.2 + 1))
    (db, 0)

/-- Count of whatsapp_tasks rows carrying an identifier. -/
def taskCount (db : DB) (id : List Char) : Nat :=
  db.tasks.countP (fun r => r.message_id == id)

/-- Count of whatsapp_processed_messages rows carrying an identifier. -/
def procCount (db : DB) (id : List Char) : Nat :=
  db.processed.countP (fun p => p.message_id == id)

/-- The tail slice the source applies to a candidate element list, the
Python slice keeping the last k elements; the index negating k makes the
slice keep everything when k is zero. -/
def pyTailSlice (l : List α) (k : Nat) : List α :=
  if k = 0 then l else l.drop (l.length - k)

/-- The truncation of extract_messages: every successful strategy keeps the
slice of the last min of max_messages and the length of the candidate
element list, so that the newest elements, the final ones of the
oldest-first scrollback, survive. -/
def extract_messages (elements : List α) (maxMessages : Nat) : List α :=
  pyTailSlice elements (min maxMessages elements.length)

/-- What one conversation page offers to the navigator during one scan:
whether the search box was found, which of the templated contact selectors
yield a clickable element, whether the text-content fallback or the row
fallback can click anything, and the messages of the open conversation. -/
structure GroupPage where
  searchBoxFound : Bool
  contactTemplatedHits : List Bool
  textElementHit : Bool
  rowHit : Bool
  messages : List (List Char × List Char)

/-- click_on_contact_or_group: true exactly when some templated selector,
the text-content fallback or the row fallback clicks an element; false
after exhausting every alternative. -/
def click_on_contact_or_group (p : GroupPage) : Bool :=
  p.contactTemplatedHits.any (fun b => b) || p.textElementHit || p.rowHit

/-- The group loop of scan_whatsapp_messages: a group whose search box is
missing or whose conversation cannot be opened is skipped and the loop
proceeds with the next group; an opened conversation contributes the
records of its messages. -/
def scan_whatsapp_messages (env : ApiEnv) (seed minWords : Nat) (now : List Char)
    (page : List Char → GroupPage) (groups : List (List Char)) : List WaTask :=
  concatMap
    (fun g =>
      if (page g).searchBoxFound then
        if click_on_contact_or_group (page g) then
          concatMap (fun sm => live_message_tasks env seed minWords g now sm.1 sm.2)
            (page g).messages
        else []
      else [])
    groups

/-- Modelled from the spec: the write section of one admission under the
transactional semantics of the store. The task insert and the processed
insert run in one implicit transaction; the write sections of two
connections are serialized by the single-writer lock of the store, and a
primary key violation on the processed insert aborts the transaction, so
the uncommitted task insert is discarded when the connection closes
without a commit. -/
def admission_write_block (db : DB) (group now : List Char) (t : WaTask) : DB :=
  if hasProcessed db t.message_id then db
  else
    { tasks := db.tasks ++ [insertTaskRow group t]
      processed := db.processed ++ [insertProcRow group now t] }

/-- The interleavings of two near-simultaneous admissions of the same
identifier: serial means the second checks after the first commits;
overlapAbort means both pass the check before either writes and the second
write section dies on the primary key; overlapBusy means the second write
transaction is refused by the writer lock and commits nothing. -/
inductive AdmitSched
  | serial
  | overlapAbort
  | overlapBusy

/-- Outcome of two near-simultaneous admissions of one candidate under a
chosen interleaving. -/
def run_two_admissions (s : AdmitSched) (db : DB) (group now1 now2 : List Char)
    (t : WaTask) : DB :=
  match s with
  | .serial =>
    let db1 := if hasProcessed db t.message_id then db
               else admission_write_block db group now1 t
    if hasProcessed db1 t.message_id then db1
    else admission_write_block db1 group now2 t
  | .overlapAbort =>
    let secondPassed := !hasProcessed db t.message_id
    let db1 := if hasProcessed db t.message_id then db
               else admission_write_block db group now1 t
    if secondPassed then admission_write_block db1 group now2 t else db1
  | .overlapBusy =>
    if hasProcessed db t.message_id then db
    else admission_write_block db group now1 t

/-! Concrete instances used by the witness theorems. -/

/-- A store with both tables empty. -/
def emptyDB : DB := { tasks := [], processed := [] }

/-- A concrete candidate task record. -/
def sampleWaTask : WaTask :=
  mkWaTaskLive 0 (lc "Team") (lc "t0") (lc "Alice") (lc "please do it now")
    (lc "please do it now")

/-! Helper lemmas shared by the claim theorems. -/

theorem isEmpty_map (f : Char → Char) (l : List Char) :
    (l.map f).isEmpty = l.isEmpty := by
  cases l <;> rfl

theorem isWs_pyLowerChar (c : Char) : isWs (pyLowerChar c) = isWs c := by
  unfold pyLowerChar
  split <;> rfl

theorem wordsAux_map_ws_length {f : Char → Char} (hf : ∀ c, isWs (f c) = isWs c) :
    ∀ (l acc : List Char),
      (wordsAux (l.map f) (acc.map f)).length = (wordsAux l acc).length
  | [], acc => by
    cases acc <;> simp [wordsAux]
  | c :: cs, acc => by
    rw [List.map_cons]
    unfold wordsAux
    rw [hf c]
    by_cases h : isWs c = true
    · rw [if_pos h, if_pos h, isEmpty_map]
      by_cases ha : acc.isEmpty = true
      · rw [if_pos ha, if_pos ha]
        exact wordsAux_map_ws_length hf cs []
      · rw [if_neg ha, if_neg ha]
        simp only [List.length_cons]
        have hrec := wordsAux_map_ws_length hf cs []
        simp only [List.map_nil] at hrec
        omega
    · rw [if_neg h, if_neg h]
      exact wordsAux_map_ws_length hf cs (c :: acc)

theorem wordCount_pyLower (l : List Char) :
    (pyWords (pyLower l)).length = wordCount l := by
  unfold wordCount pyWords pyLower
  exact wordsAux_map_ws_length isWs_pyLowerChar l []

theorem concatMap_cons (f : α → List β) (a : α) (l : List α) :
    concatMap f (a :: l) = f a ++ concatMap f l := rfl

theorem hasProcessed_eq_false_of (db : DB) (id : List Char)
    (h : procCount db id = 0) : hasProcessed db id = false := by
  unfold procCount at h
  unfold hasProcessed
  rw [List.any_eq_false]
  intro p hp
  have := List.countP_eq_zero.mp h p hp
  simpa using this

theorem hasProcessed_insert (db : DB) (group now : List Char) (t : WaTask) :
    hasProcessed
      { tasks := db.tasks ++ [insertTaskRow group t]
        processed := db.processed ++ [insertProcRow group now t] } t.message_id = true := by
  unfold hasProcessed
  simp [List.any_append, insertProcRow]

theorem taskCount_insert (db : DB) (group now : List Char) (t : WaTask)
    (h : taskCount db t.message_id = 0) :
    taskCount
      { tasks := db.tasks ++ [insertTaskRow group t]
        processed := db.processed ++ [insertProcRow group now t] } t.message_id = 1 := by
  unfold taskCount at h ⊢
  dsimp only
  rw [List.countP_append, h]
  simp [insertTaskRow]

theorem procCount_insert (db : DB) (group now : List Char) (t : WaTask)
    (h : procCount db t.message_id = 0) :
    procCount
      { tasks := db.tasks ++ [insertTaskRow group t]
        processed := db.processed ++ [insertProcRow group now t] } t.message_id = 1 := by
  unfold procCount at h ⊢
  dsimp only
  rw [List.countP_append, h]
  simp [insertProcRow]

/-! Claim theorems. -/

/-- C2 counterexample: the identifier is not reproducible across process
restarts. Two runs differing only in the process hash salt derive
different identifiers for the same conversation, sender and text. -/
theorem message_id_restart_unstable :
    scan_message_id 0 (lc "Team") (lc "Alice") (lc "hello world") ≠
      scan_message_id 1 (lc "Team") (lc "Alice") (lc "hello world") := by decide

/-- C2 amended: within one process, with the hash salt fixed, the
identifier of a scanned message and the identifier stored with its
extracted task are deterministic functions of conversation name, sender,
message text and extracted task text. -/
theorem message_id_deterministic_fixed_seed (seed : Nat)
    (g s t task g2 s2 t2 task2 : List Char)
    (hg : g = g2) (hs : s = s2) (ht : t = t2) (htask : task = task2) :
    scan_message_id seed g s t = scan_message_id seed g2 s2 t2 ∧
    stored_message_id seed g s t task = stored_message_id seed g2 s2 t2 task2 := by
  subst hg; subst hs; subst ht; subst htask
  exact ⟨rfl, rfl⟩

/-- C2 witness: the amended determinism at one concrete input. -/
theorem message_id_deterministic_fixed_seed_check :
    scan_message_id 7 (lc "Team") (lc "Alice") (lc "call me later") =
      scan_message_id 7 (lc "Team") (lc "Alice") (lc "call me later") ∧
    stored_message_id 7 (lc "Team") (lc "Alice") (lc "call me later") (lc "call me later") =
      stored_message_id 7 (lc "Team") (lc "Alice") (lc "call me later") (lc "call me later") :=
  message_id_deterministic_fixed_seed 7 _ _ _ _ _ _ _ _ rfl rfl rfl rfl

/-- C5 counterexample: with max_messages zero and one candidate element,
the negated zero index of the Python tail slice keeps the whole list, so
extract_messages returns more elements than asked for. -/
theorem tail_truncation_zero_cex :
    ¬(extract_messages [(0 : Nat)] 0).length ≤ 0 := by decide

/-- C5 amended: for a positive bound, extract_messages returns at most
max_messages elements, and when more candidates are available it returns
exactly the trailing ones, the most recently ordered. -/
theorem tail_truncation_bound {α : Type} (elements : List α) (maxMessages : Nat)
    (h : 1 ≤ maxMessages) :
    (extract_messages elements maxMessages).length ≤ maxMessages ∧
    (maxMessages < elements.length →
      extract_messages elements maxMessages =
        elements.drop (elements.length - maxMessages)) := by
  unfold extract_messages pyTailSlice
  rcases Nat.eq_zero_or_pos elements.length with hl | hl
  · have he : elements = [] := List.length_eq_zero.mp hl
    subst he
    simp
  · have hk : min maxMessages elements.length ≠ 0 := by
      have h1 : 1 ≤ min maxMessages elements.length := le_min h hl
      omega
    rw [if_neg hk]
    constructor
    · rw [List.length_drop]
      have h2 := Nat.min_le_left maxMessages elements.length
      omega
    · intro hgt
      rw [Nat.min_eq_left (Nat.le_of_lt hgt)]

/-- C5 witness: the amended bound at one concrete input. -/
theorem tail_truncation_bound_check :
    (extract_messages [(10 : Nat), 20] 1).length ≤ 1 ∧
    (1 < ([(10 : Nat), 20] : List Nat).length →
      extract_messages [(10 : Nat), 20] 1 =
        ([(10 : Nat), 20] : List Nat).drop (([(10 : Nat), 20] : List Nat).length - 1)) :=
  tail_truncation_bound [10, 20] 1 (by decide)

/-- C6: with no API key configured the extraction is the rule-based path,
a pure function of the message text, so two runs with any API environments
lacking a key return the same task list; and a stored row always carries
the default priority medium, identical across runs. -/
theorem fallback_deterministic (e1 e2 : ApiEnv) (text group : List Char)
    (t : WaTask) (h1 : e1.apiKey = none) (h2 : e2.apiKey = none) :
    extract_tasks_from_message e1 text = extract_tasks_from_message e2 text ∧
    (insertTaskRow group t).priority = lc "medium" := by
  refine ⟨?_, rfl⟩
  unfold extract_tasks_from_message
  rw [h1, h2]

/-- C6 witness: determinism of the keyless path at one concrete input. -/
theorem fallback_deterministic_check :
    extract_tasks_from_message ⟨none, some (lc "NO_TASK")⟩ (lc "please do it now") =
      extract_tasks_from_message ⟨none, none⟩ (lc "please do it now") ∧
    (insertTaskRow (lc "Team") sampleWaTask).priority = lc "medium" :=
  fallback_deterministic ⟨none, some (lc "NO_TASK")⟩ ⟨none, none⟩
    (lc "please do it now") (lc "Team") sampleWaTask rfl rfl

/-- C3 counterexample: the export path applies no minimum word filter, so a
message of four words, below the default minimum of five, reaches the
extraction engine there and yields a task candidate. -/
theorem export_path_min_words_unfiltered :
    wordCount (lc "please do it now") < 5 ∧
    export_message_tasks ⟨none, none⟩ 0 (lc "Team") (lc "t0") (lc "Alice")
      (lc "please do it now") ≠ [] := by decide

/-- C3 amended: on the live browser scan path, a message whose word count
is below the configured minimum yields zero task candidates regardless of
its content; the export path carries no such filter. -/
theorem live_min_words_filtered (env : ApiEnv) (seed minWords : Nat)
    (group now sender text : List Char) (h : wordCount text < minWords) :
    live_message_tasks env seed minWords group now sender text = [] := by
  unfold live_message_tasks
  rw [if_pos (Or.inr h)]

/-- C3 witness: the one word message ok under the default minimum of five
yields no candidate on the live path. -/
theorem live_min_words_filtered_check :
    wordCount (lc "ok") < 5 ∧
    live_message_tasks ⟨none, none⟩ 0 5 (lc "Team") (lc "t0") (lc "Alice") (lc "ok") = [] :=
  ⟨by decide, live_min_words_filtered ⟨none, none⟩ 0 5 _ _ _ _ (by decide)⟩

/-- C7: a line matching the export pattern is parsed into its sender and
message text, those are fed through the same extraction engine, and the
record built on the export path is identical to the record the live path
builds for the same inputs, carrying that sender and message text. -/
theorem export_lines_same_pipeline (env : ApiEnv) (seed : Nat)
    (group now line ts sender msg task : List Char)
    (h : parse_export_line line = some (ts, sender, msg)) :
    scan_export_line env seed group now line =
      (extract_tasks_from_message env msg).map (mkWaTaskExport seed group now sender msg) ∧
    mkWaTaskExport seed group now sender msg task =
      mkWaTaskLive seed group now sender msg task ∧
    (mkWaTaskExport seed group now sender msg task).sender = sender ∧
    (mkWaTaskExport seed group now sender msg task).original_message = msg := by
  refine ⟨?_, rfl, rfl, rfl⟩
  unfold scan_export_line
  rw [h]
  rfl

/-- C7 witness: one concrete export line parsed and processed. -/
theorem export_lines_same_pipeline_check :
    parse_export_line (lc "[01/02/24, 10:11:12] Alice: please do it now") =
      some (lc "01/02/24, 10:11:12", lc "Alice", lc "please do it now") ∧
    (scan_export_line ⟨none, none⟩ 0 (lc "Team") (lc "t0")
        (lc "[01/02/24, 10:11:12] Alice: please do it now") =
      (extract_tasks_from_message ⟨none, none⟩ (lc "please do it now")).map
        (mkWaTaskExport 0 (lc "Team") (lc "t0") (lc "Alice") (lc "please do it now")) ∧
    mkWaTaskExport 0 (lc "Team") (lc "t0") (lc "Alice") (lc "please do it now")
        (lc "please do it now") =
      mkWaTaskLive 0 (lc "Team") (lc "t0") (lc "Alice") (lc "please do it now")
        (lc "please do it now") ∧
    (mkWaTaskExport 0 (lc "Team") (lc "t0") (lc "Alice") (lc "please do it now")
        (lc "please do it now")).sender = lc "Alice" ∧
    (mkWaTaskExport 0 (lc "Team") (lc "t0") (lc "Alice") (lc "please do it now")
        (lc "please do it now")).original_message = lc "please do it now") :=
  ⟨by decide,
   export_lines_same_pipeline ⟨none, none⟩ 0 (lc "Team") (lc "t0")
     (lc "[01/02/24, 10:11:12] Alice: please do it now") (lc "01/02/24, 10:11:12")
     (lc "Alice") (lc "please do it now") (lc "please do it now") (by decide)⟩

/-- C8: the message about sending the updated proposal, with no API key
configured, yields exactly one task whose description is the message text
with no marker to strip, and the stored row takes the default priority
medium. -/
theorem eod_proposal_scenario :
    extract_tasks_from_message ⟨none, none⟩
        (lc "Please send the updated proposal to marketing by EOD") =
      [lc "Please send the updated proposal to marketing by EOD"] ∧
    (insertTaskRow (lc "Team")
        (mkWaTaskLive 0 (lc "Team") (lc "t0") (lc "Alice")
          (lc "Please send the updated proposal to marketing by EOD")
          (lc "Please send the updated proposal to marketing by EOD"))).priority =
      lc "medium" :=
  ⟨by decide, rfl⟩

/-- C9: after exhausting the templated selectors, the text content
fallback and the row fallback without a hit, click_on_contact_or_group
returns false, and the group loop skips that conversation, leaving the
scan of the remaining conversations unchanged. -/
theorem open_conversation_miss_skips (env : ApiEnv) (seed minWords : Nat)
    (now g : List Char) (page : List Char → GroupPage) (rest : List (List Char))
    (hT : ∀ b ∈ (page g).contactTemplatedHits, b = false)
    (hX : (page g).textElementHit = false)
    (hR : (page g).rowHit = false) :
    click_on_contact_or_group (page g) = false ∧
    scan_whatsapp_messages env seed minWords now page (g :: rest) =
      scan_whatsapp_messages env seed minWords now page rest := by
  have hA : (page g).contactTemplatedHits.any (fun b => b) = false := by
    rw [List.any_eq_false]
    intro b hb
    simp [hT b hb]
  have hclick : click_on_contact_or_group (page g) = false := by
    unfold click_on_contact_or_group
    rw [hA, hX, hR]
    rfl
  refine ⟨hclick, ?_⟩
  unfold scan_whatsapp_messages
  rw [concatMap_cons, hclick]
  simp

/-- A page offering a search box but no clickable match for any strategy. -/
def pageNoHit : List Char → GroupPage := fun _ =>
  { searchBoxFound := true
    contactTemplatedHits := [false, false, false]
    textElementHit := false
    rowHit := false
    messages := [] }

/-- C9 witness: the miss outcome at one concrete page and group list. -/
theorem open_conversation_miss_skips_check :
    click_on_contact_or_group (pageNoHit (lc "Team")) = false ∧
    scan_whatsapp_messages ⟨none, none⟩ 0 5 (lc "t0") pageNoHit [lc "Team"] =
      scan_whatsapp_messages ⟨none, none⟩ 0 5 (lc "t0") pageNoHit [] :=
  open_conversation_miss_skips ⟨none, none⟩ 0 5 (lc "t0") (lc "Team") pageNoHit []
    (by decide) rfl rfl

/-- C10: every task the rule-based fallback produces has at least three
words, so a cue matching line whose stripped task falls below three words
contributes nothing. -/
theorem fallback_tasks_min_three_words (msg t : List Char)
    (h : t ∈ extract_tasks_fallback msg) : 3 ≤ wordCount t := by
  unfold extract_tasks_fallback at h
  by_cases he : ((splitNl msg).filterMap structuredLineTask).isEmpty = true
  · rw [if_pos he] at h
    rcases List.mem_filterMap.mp h with ⟨raw, _, hsome⟩
    unfold verbLineTask at hsome
    by_cases hc : ¬(pyWords (pyLower (pyStrip raw))).isEmpty ∧
        actionVerbs.contains ((pyWords (pyLower (pyStrip raw))).headD []) ∧
        3 ≤ (pyWords (pyLower (pyStrip raw))).length
    · rw [if_pos hc] at hsome
      have h2 := Option.some.inj hsome
      rw [← h2]
      exact le_of_le_of_eq hc.2.2 (wordCount_pyLower (pyStrip raw))
    · rw [if_neg hc] at hsome
      exact Option.noConfusion hsome
  · rw [if_neg he] at h
    rcases List.mem_filterMap.mp h with ⟨raw, _, hsome⟩
    unfold structuredLineTask at hsome
    by_cases h1 : lineHasCue (pyStrip raw) = true
    · rw [if_pos h1] at hsome
      by_cases h3 : 3 ≤ wordCount (stripNumDot (stripMarkers (pyStrip raw)))
      · rw [if_pos h3] at hsome
        have h2 := Option.some.inj hsome
        rw [← h2]
        exact h3
      · rw [if_neg h3] at hsome
        exact Option.noConfusion hsome
    · rw [if_neg h1] at hsome
      exact Option.noConfusion hsome

/-- C10 witness: a concrete produced task and its word bound. -/
theorem fallback_tasks_min_three_words_check :
    lc "please do it now" ∈ extract_tasks_fallback (lc "please do it now") ∧
    3 ≤ wordCount (lc "please do it now") :=
  ⟨by decide,
   fallback_tasks_min_three_words (lc "please do it now") (lc "please do it now")
     (by decide)⟩

/-- C1: admitting a fresh candidate stores it and counts one new task; a
second admission of the identical candidate finds the identifier in the
processed table, writes nothing and counts zero, leaving exactly one task
row and one processed row with that identifier. -/
theorem admission_idempotent (db : DB) (group now1 now2 : List Char) (t : WaTask)
    (db1 : DB) (n1 : Nat)
    (hp : procCount db t.message_id = 0) (ht : taskCount db t.message_id = 0)
    (hrun : save_tasks_to_db [t] group now1 db = (db1, n1)) :
    n1 = 1 ∧
    save_tasks_to_db [t] group now2 db1 = (db1, 0) ∧
    taskCount db1 t.message_id = 1 ∧ procCount db1 t.message_id = 1 := by
  have h0 : hasProcessed db t.message_id = false := hasProcessed_eq_false_of db _ hp
  have e1 : save_tasks_to_db [t] group now1 db =
      ({ tasks := db.tasks ++ [insertTaskRow group t]
         processed := db.processed ++ [insertProcRow group now1 t] }, 1) := by
    unfold save_tasks_to_db
    simp [h0]
  rw [e1] at hrun
  injection hrun with hdb hn
  subst hdb
  subst hn
  refine ⟨rfl, ?_, taskCount_insert db group now1 t ht, procCount_insert db group now1 t hp⟩
  unfold save_tasks_to_db
  simp [hasProcessed_insert]

/-- The store after admitting the sample candidate once. -/
def sampleDB1 : DB :=
  { tasks := [insertTaskRow (lc "Team") sampleWaTask]
    processed := [insertProcRow (lc "Team") (lc "t1") sampleWaTask] }

/-- C1 witness: the double admission at one concrete candidate over the
empty store. -/
theorem admission_idempotent_check :
    (procCount emptyDB sampleWaTask.message_id = 0 ∧
     taskCount emptyDB sampleWaTask.message_id = 0 ∧
     save_tasks_to_db [sampleWaTask] (lc "Team") (lc "t1") emptyDB = (sampleDB1, 1)) ∧
    ((1 : Nat) = 1 ∧
     save_tasks_to_db [sampleWaTask] (lc "Team") (lc "t2") sampleDB1 = (sampleDB1, 0) ∧
     taskCount sampleDB1 sampleWaTask.message_id = 1 ∧
     procCount sampleDB1 sampleWaTask.message_id = 1) :=
  ⟨⟨rfl, rfl, by decide⟩,
   admission_idempotent emptyDB (lc "Team") (lc "t1") (lc "t2") sampleWaTask sampleDB1 1
     rfl rfl (by decide)⟩

/-- C4: under every modelled interleaving of two near-simultaneous
admissions of the same fresh identifier, with the write sections
serialized by the store and the primary key of the processed table
aborting a duplicate mark, exactly one task row and one processed row with
that identifier persist; both admissions can pass the check but never both
persist. -/
theorem dedup_gate_atomic (s : AdmitSched) (db : DB) (group now1 now2 : List Char)
    (t : WaTask) (hp : procCount db t.message_id = 0)
    (ht : taskCount db t.message_id = 0) :
    taskCount (run_two_admissions s db group now1 now2 t) t.message_id = 1 ∧
    procCount (run_two_admissions s db group now1 now2 t) t.message_id = 1 := by
  have h0 : hasProcessed db t.message_id = false := hasProcessed_eq_false_of db _ hp
  have hwb1 : admission_write_block db group now1 t =
      { tasks := db.tasks ++ [insertTaskRow group t]
        processed := db.processed ++ [insertProcRow group now1 t] } := by
    unfold admission_write_block
    rw [h0]
    simp
  have hwb2 : admission_write_block
      ({ tasks := db.tasks ++ [insertTaskRow group t]
         processed := db.processed ++ [insertProcRow group now1 t] } : DB) group now2 t =
      { tasks := db.tasks ++ [insertTaskRow group t]
        processed := db.processed ++ [insertProcRow group now1 t] } := by
    unfold admission_write_block
    rw [hasProcessed_insert]
    simp
  have hrun : run_two_admissions s db group now1 now2 t =
      { tasks := db.tasks ++ [insertTaskRow group t]
        processed := db.processed ++ [insertProcRow group now1 t] } := by
    cases s <;> simp [run_two_admissions, h0, hwb1, hwb2, hasProcessed_insert]
  rw [hrun]
  exact ⟨taskCount_insert db group now1 t ht, procCount_insert db group now1 t hp⟩

/-- C4 witness: the overlapping interleaving at one concrete candidate
over the empty store. -/
theorem dedup_gate_atomic_check :
    (procCount emptyDB sampleWaTask.message_id = 0 ∧
     taskCount emptyDB sampleWaTask.message_id = 0) ∧
    (taskCount
        (run_two_admissions .overlapAbort emptyDB (lc "Team") (lc "t1") (lc "t2") sampleWaTask)
        sampleWaTask.message_id = 1 ∧
     procCount
        (run_two_admissions .overlapAbort emptyDB (lc "Team") (lc "t1") (lc "t2") sampleWaTask)
        sampleWaTask.message_id = 1) :=
  ⟨⟨rfl, rfl⟩,
   dedup_gate_atomic .overlapAbort emptyDB (lc "Team") (lc "t1") (lc "t2") sampleWaTask
     rfl rfl⟩

end Cassie
